import Mathlib

/-!
# Verification of the ardmnova AR viewer

Shallow embedding of the repository's core logic:

* `MaterialSelector.tsx` (material catalog): `Material`, `chairMaterials`,
  `sofaMaterials`, `getModelMaterials`.
* `scripts/generate-asset-index.js` (asset indexer): `generateIndex` over a
  keyed model of a directory.
* The two `ARCamera.tsx` component variants (variant A and variant B):
  `spawnModelA`/`spawnModelB`, `transformModelA`/`transformModelB`,
  `handleMaterialSelect`, and the loading-flag discipline that serializes
  model spawns.

JavaScript numbers are modelled as rationals (`ℚ`); the asynchronous load of
a GLB asset is modelled by passing its outcome (`Option Obj3D`) explicitly;
`Math.random()` draws and `Date.now()` are likewise explicit inputs.
-/

/-! ## String helpers modelling JavaScript string primitives (ASCII file names) -/

/-- Is `pat` a prefix of `s` (on character lists)? -/
def charsPrefix : List Char → List Char → Bool
  | [], _ => true
  | _ :: _, [] => false
  | a :: as, b :: bs => a == b && charsPrefix as bs

/-- Does `s` contain `pat` as a contiguous substring? Models
`String.prototype.includes`. -/
def charsContains (pat : List Char) : List Char → Bool
  | [] => pat.isEmpty
  | b :: bs => charsPrefix pat (b :: bs) || charsContains pat bs

/-- JS `s.includes(pat)`. -/
def jsIncludes (s pat : String) : Bool :=
  charsContains pat.toList s.toList

/-- JS `s.endsWith(suffix)`. -/
def jsEndsWith (s suffix : String) : Bool :=
  charsPrefix suffix.toList.reverse s.toList.reverse

/-- ASCII lowercasing of one character (`A`..`Z` map to `a`..`z`). -/
def lowerChar (c : Char) : Char :=
  if 65 ≤ c.toNat && c.toNat ≤ 90 then Char.ofNat (c.toNat + 32) else c

/-- JS `s.toLowerCase()`, restricted to ASCII (the model names used by the
application are ASCII file-name stems). -/
def jsToLowerCase (s : String) : String :=
  String.mk (s.toList.map lowerChar)

/-! ## Material catalog (MaterialSelector.tsx) -/

/-- A material descriptor; `color` is the optional `color?: string` field. -/
structure Material where
  id : String
  name : String
  color : Option String
  preview : String
  deriving DecidableEq

/-- `chairMaterials` from MaterialSelector.tsx. -/
def chairMaterials : List Material := [
  { id := "leather-brown", name := "Brown Leather", color := some "#8B4513",
    preview := "linear-gradient(135deg, #8B4513, #A0522D)" },
  { id := "leather-black", name := "Black Leather", color := some "#1a1a1a",
    preview := "linear-gradient(135deg, #1a1a1a, #333333)" },
  { id := "fabric-gray", name := "Gray Fabric", color := some "#6B7280",
    preview := "linear-gradient(135deg, #6B7280, #9CA3AF)" },
  { id := "fabric-blue", name := "Blue Fabric", color := some "#3B82F6",
    preview := "linear-gradient(135deg, #3B82F6, #60A5FA)" },
  { id := "wood-oak", name := "Oak Wood", color := some "#DEB887",
    preview := "linear-gradient(135deg, #DEB887, #F5DEB3)" },
  { id := "wood-walnut", name := "Walnut", color := some "#654321",
    preview := "linear-gradient(135deg, #654321, #8B4513)" },
  { id := "metal-chrome", name := "Chrome", color := some "#C0C0C0",
    preview := "linear-gradient(135deg, #C0C0C0, #E6E6FA)" },
  { id := "metal-black", name := "Black Metal", color := some "#2C2C2C",
    preview := "linear-gradient(135deg, #2C2C2C, #4A4A4A)" }
]

/-- `sofaMaterials` from MaterialSelector.tsx: four velvet/linen/cotton
entries followed by the leather entries of `chairMaterials`. -/
def sofaMaterials : List Material := [
  { id := "velvet-emerald", name := "Emerald Velvet", color := some "#50C878",
    preview := "linear-gradient(135deg, #50C878, #7FFFD4)" },
  { id := "velvet-burgundy", name := "Burgundy Velvet", color := some "#800020",
    preview := "linear-gradient(135deg, #800020, #B22222)" },
  { id := "linen-beige", name := "Beige Linen", color := some "#F5F5DC",
    preview := "linear-gradient(135deg, #F5F5DC, #FFFACD)" },
  { id := "cotton-white", name := "White Cotton", color := some "#FFFFFF",
    preview := "linear-gradient(135deg, #FFFFFF, #F8F8FF)" }
] ++ chairMaterials.filter (fun m => jsIncludes m.id "leather")

/-- The default four-color palette returned inline at the end of
`getModelMaterials`. -/
def defaultMaterials : List Material := [
  { id := "default-red", name := "Red", color := some "#EF4444",
    preview := "linear-gradient(135deg, #EF4444, #F87171)" },
  { id := "default-blue", name := "Blue", color := some "#3B82F6",
    preview := "linear-gradient(135deg, #3B82F6, #60A5FA)" },
  { id := "default-green", name := "Green", color := some "#10B981",
    preview := "linear-gradient(135deg, #10B981, #34D399)" },
  { id := "default-purple", name := "Purple", color := some "#8B5CF6",
    preview := "linear-gradient(135deg, #8B5CF6, #A78BFA)" }
]

/-- `getModelMaterials` from MaterialSelector.tsx. -/
def getModelMaterials (modelName : String) : List Material :=
  let lowerName := jsToLowerCase modelName
  if jsIncludes lowerName "chair" then
    chairMaterials
  else if jsIncludes lowerName "sofa" || jsIncludes lowerName "couch" then
    sofaMaterials
  else if jsIncludes lowerName "table" then
    chairMaterials.filter (fun m => jsIncludes m.id "wood" || jsIncludes m.id "metal")
  else
    defaultMaterials

/-! ## Asset indexer (scripts/generate-asset-index.js)

A directory is modelled as a keyed store: a list of `(fileName, contents)`
pairs with unique names (as the filesystem guarantees).  `fs.writeFileSync`
replaces the entry for the written name; `fs.readdirSync` yields the names;
`fs.mkdirSync` on a missing directory creates an empty one.  JS `Array.sort()`
on ASCII file names is lexicographic string order, modelled by Mathlib's
`List.insertionSort` with `· ≤ ·` on `String`. -/

/-- A directory: file names with their contents. -/
abbrev Dir := List (String × String)

/-- The names in a directory (`fs.readdirSync`). -/
def listNames (d : Dir) : List String := d.map Prod.fst

/-- `fs.writeFileSync`: replace any entry with the given name. -/
def writeFile (d : Dir) (name contents : String) : Dir :=
  (List.filter (fun p => !(p.1 == name)) d) ++ [(name, contents)]

/-- Read a file's contents back from the directory model. -/
def readFile (d : Dir) (name : String) : Option String :=
  (d.find? (fun p => p.1 == name)).map Prod.snd

/-- `fs.existsSync` + `fs.mkdirSync`: a missing directory becomes empty. -/
def ensureDir (d : Option Dir) : Dir := d.getD []

/-- Escape a character for a JSON string literal (file names are ASCII with
no control characters, so only the backslash and the quote need escaping). -/
def jsonEscapeChar (c : Char) : List Char :=
  if c = '"' then ['\\', '"']
  else if c = '\\' then ['\\', '\\'] else [c]

/-- JSON string literal for a file name. -/
def jsonString (s : String) : String :=
  String.mk ('"' :: s.toList.foldr (fun c acc => jsonEscapeChar c ++ acc) ['"'])

/-- `JSON.stringify(files, null, 2)` for an array of strings. -/
def jsonStringify (files : List String) : String :=
  match files with
  | [] => "[]"
  | _ => "[\n  " ++ String.intercalate ",\n  " (files.map jsonString) ++ "\n]"

/-- The files matching the extension filter (`file.endsWith(extension)`). -/
def matchingFiles (names : List String) (extension : String) : List String :=
  names.filter (fun file => jsEndsWith file extension)

/-- `.filter(...).sort()` : matching files in lexicographic order. -/
def sortedMatchingFiles (names : List String) (extension : String) : List String :=
  List.insertionSort (· ≤ ·) (matchingFiles names extension)

/-- `generateIndex(directory, extension)` from generate-asset-index.js:
ensure the directory exists, list files matching the extension, sort them,
and overwrite `index.json` with the JSON array of the sorted list. -/
def generateIndex (directory : Option Dir) (extension : String) : Dir :=
  let fullPath := ensureDir directory
  let files := sortedMatchingFiles (listNames fullPath) extension
  writeFile fullPath "index.json" (jsonStringify files)

/-- `main()` from generate-asset-index.js: index the `3d` directory for
`.glb` files and the `minds` directory for `.mind` files. -/
def generateAssetIndexMain (dir3d minds : Option Dir) : Dir × Dir :=
  (generateIndex dir3d ".glb", generateIndex minds ".mind")

/-! ## Directory-model lemmas -/

theorem readFile_writeFile (d : Dir) (n c : String) :
    readFile (writeFile d n c) n = some c := by
  unfold readFile writeFile
  rw [List.find?_append]
  have h1 : (List.filter (fun p => !(p.1 == n)) d).find? (fun p => p.1 == n) = none := by
    rw [List.find?_eq_none]
    intro x hx
    have h2 := (List.mem_filter.mp hx).2
    simp only [Bool.not_eq_true'] at h2
    simp [h2]
  rw [h1]
  simp

theorem names_filter_ne (d : Dir) (n : String) (p : String → Bool) (hp : p n = false) :
    (listNames (List.filter (fun q => !(q.1 == n)) d)).filter p = (listNames d).filter p := by
  induction d with
  | nil => rfl
  | cons a d ih =>
    unfold listNames at ih ⊢
    by_cases ha : a.1 = n
    · have h1 : (a.1 == n) = true := beq_iff_eq.mpr ha
      have hpa : p a.1 = false := by rw [ha]; exact hp
      simpa [List.filter_cons, h1, hpa] using ih
    · have h1 : (a.1 == n) = false := beq_eq_false_iff_ne.mpr ha
      by_cases hpa : p a.1 = true
      · simpa [List.filter_cons, h1, hpa] using ih
      · have hpa2 : p a.1 = false := Bool.not_eq_true _ ▸ hpa
        simpa [List.filter_cons, h1, hpa2] using ih

theorem matchingFiles_writeFile (d : Dir) (n c ext : String)
    (h : jsEndsWith n ext = false) :
    matchingFiles (listNames (writeFile d n c)) ext =
      matchingFiles (listNames d) ext := by
  unfold matchingFiles writeFile listNames
  rw [List.map_append, List.filter_append]
  simp only [List.map_cons, List.map_nil, List.filter_cons, h]
  simp only [Bool.false_eq_true, if_false, List.filter_nil, List.append_nil]
  exact names_filter_ne d n _ h

theorem writeFile_writeFile (d : Dir) (n c c2 : String) :
    writeFile (writeFile d n c) n c2 = writeFile d n c2 := by
  unfold writeFile
  rw [List.filter_append]
  have hfilter : ∀ l : Dir,
      List.filter (fun p => !(p.1 == n)) (List.filter (fun p => !(p.1 == n)) l)
        = List.filter (fun p => !(p.1 == n)) l := by
    intro l
    induction l with
    | nil => rfl
    | cons a l ih =>
      by_cases ha : (a.1 == n) = true
      · simp [List.filter_cons, ha, ih]
      · have ha2 : (a.1 == n) = false := Bool.not_eq_true _ ▸ ha
        simp [List.filter_cons, ha2, ih]
  simp [hfilter]

/-! ## Claims about the material catalog and the indexer -/

/-- C1: for every model name, `getModelMaterials` lowercases the name and
applies the substring predicates in order — a name containing `chair` yields
the chair palette, otherwise `sofa`/`couch` yields the sofa palette,
otherwise `table` yields the table palette, and any other name yields the
exact four-entry default palette; `"Chair"`, `"CHAIR"`, `"loveseat-chair"`,
`"sofa"`, `"couch"` and `"lamp"` resolve as specified. -/
theorem claim_C1 (name : String) :
    (jsIncludes (jsToLowerCase name) "chair" = true →
      getModelMaterials name = chairMaterials) ∧
    (jsIncludes (jsToLowerCase name) "chair" = false →
      (jsIncludes (jsToLowerCase name) "sofa" || jsIncludes (jsToLowerCase name) "couch") = true →
      getModelMaterials name = sofaMaterials) ∧
    (jsIncludes (jsToLowerCase name) "chair" = false →
      jsIncludes (jsToLowerCase name) "sofa" = false →
      jsIncludes (jsToLowerCase name) "couch" = false →
      jsIncludes (jsToLowerCase name) "table" = true →
      getModelMaterials name =
        chairMaterials.filter (fun m => jsIncludes m.id "wood" || jsIncludes m.id "metal")) ∧
    (jsIncludes (jsToLowerCase name) "chair" = false →
      jsIncludes (jsToLowerCase name) "sofa" = false →
      jsIncludes (jsToLowerCase name) "couch" = false →
      jsIncludes (jsToLowerCase name) "table" = false →
      getModelMaterials name = defaultMaterials) ∧
    defaultMaterials.length = 4 ∧
    getModelMaterials "Chair" = chairMaterials ∧
    getModelMaterials "CHAIR" = chairMaterials ∧
    getModelMaterials "loveseat-chair" = chairMaterials ∧
    getModelMaterials "sofa" = sofaMaterials ∧
    getModelMaterials "couch" = sofaMaterials ∧
    getModelMaterials "lamp" = defaultMaterials := by
  refine ⟨?_, ?_, ?_, ?_, by decide, by decide, by decide, by decide,
    by decide, by decide, by decide⟩
  · intro h1
    simp [getModelMaterials, h1]
  · intro h1 h2
    simp [getModelMaterials, h1, h2]
  · intro h1 h2 h3 h4
    simp [getModelMaterials, h1, h2, h3, h4]
  · intro h1 h2 h3 h4
    simp [getModelMaterials, h1, h2, h3, h4]

theorem claim_C1_witness :
    jsIncludes (jsToLowerCase "armchair") "chair" = true ∧
    getModelMaterials "armchair" = chairMaterials :=
  ⟨by decide, (claim_C1 "armchair").1 (by decide)⟩

/-- C2: one invocation of the indexer writes to `index.json` a JSON array
holding exactly the names of files in the directory that end with the
extension, sorted lexicographically, after creating the directory when it
does not exist. -/
theorem claim_C2 (directory : Option Dir) (extension : String) :
    readFile (generateIndex directory extension) "index.json" =
      some (jsonStringify (sortedMatchingFiles (listNames (ensureDir directory)) extension)) ∧
    List.Sorted (· ≤ ·) (sortedMatchingFiles (listNames (ensureDir directory)) extension) ∧
    (sortedMatchingFiles (listNames (ensureDir directory)) extension).Perm
      ((listNames (ensureDir directory)).filter (fun f => jsEndsWith f extension)) ∧
    (∀ f, f ∈ sortedMatchingFiles (listNames (ensureDir directory)) extension ↔
      f ∈ listNames (ensureDir directory) ∧ jsEndsWith f extension = true) ∧
    generateIndex none extension = [("index.json", "[]")] := by
  refine ⟨readFile_writeFile _ _ _, List.sorted_insertionSort _ _,
    List.perm_insertionSort _ _, ?_, ?_⟩
  · intro f
    unfold sortedMatchingFiles matchingFiles
    rw [List.mem_insertionSort, List.mem_filter]
  · rfl

/-- C7: the indexer is idempotent for the two extensions it is invoked
with, because `index.json` matches neither `.glb` nor `.mind`; a second run
over the first run's output directory is byte-identical to the first. -/
theorem claim_C7 :
    jsEndsWith "index.json" ".glb" = false ∧
    jsEndsWith "index.json" ".mind" = false ∧
    ∀ dir3d minds : Option Dir,
      generateIndex (some (generateIndex dir3d ".glb")) ".glb" =
        generateIndex dir3d ".glb" ∧
      generateIndex (some (generateIndex minds ".mind")) ".mind" =
        generateIndex minds ".mind" := by
  have key : ∀ (dir : Option Dir) (ext : String), jsEndsWith "index.json" ext = false →
      generateIndex (some (generateIndex dir ext)) ext = generateIndex dir ext := by
    intro dir ext hext
    unfold generateIndex ensureDir
    simp only [Option.getD_some]
    unfold sortedMatchingFiles
    rw [matchingFiles_writeFile _ _ _ _ hext, writeFile_writeFile]
  exact ⟨by decide, by decide, fun dir3d minds =>
    ⟨key dir3d ".glb" (by decide), key minds ".mind" (by decide)⟩⟩

/-! ## AR viewer state (the two ARCamera.tsx variants)

JavaScript numbers are rationals here.  A `THREE.Object3D` is modelled by its
observable transform plus the fields the component touches: whether it is a
single `THREE.Mesh` and, if so, its material color (`color.setHex`).  The
asynchronous GLB load inside `spawnModel` is modelled by passing its outcome:
`some node` when the loader resolves, `none` when it rejects.  `Math.random()`
draws and `Date.now()` are explicit inputs for the same reason. -/

/-- A 3-vector of JS numbers (`THREE.Vector3`). -/
structure Vec3 where
  x : ℚ
  y : ℚ
  z : ℚ
  deriving DecidableEq

/-- Euler angles (`THREE.Euler`), default XYZ order. -/
structure EulerAngles where
  x : ℚ
  y : ℚ
  z : ℚ
  deriving DecidableEq

/-- The observable part of a `THREE.Object3D` scene node. -/
structure Obj3D where
  position : Vec3
  rotation : EulerAngles
  scale : Vec3
  isMesh : Bool
  meshColor : Option Nat
  deriving DecidableEq

/-- A toast notification (`toast({...})`); `variant` defaults to
`default` when the call site omits it. -/
inductive ToastVariant
  | default
  | destructive
  deriving DecidableEq

structure Toast where
  title : String
  description : String
  variant : ToastVariant
  deriving DecidableEq

/-- The `controlMode` state: `'move' | 'rotate' | 'scale'`. -/
inductive ControlMode
  | move
  | rotate
  | scale
  deriving DecidableEq

/-- An `ARModel` entry of the placed-model list. -/
structure ARModel where
  id : String
  name : String
  model : Obj3D
  position : Vec3
  rotation : EulerAngles
  scale : Vec3
  locked : Bool
  selectedMaterial : Option String
  materials : List Material
  deriving DecidableEq

/-- The component state touched by the operations under verification.
`hasScene` models `sceneRef.current` being non-null; `scene` is the list of
nodes inserted by `scene.add`. -/
structure ARState where
  hasScene : Bool
  arModels : List ARModel
  scene : List Obj3D
  selectedModel : Option String
  controlMode : ControlMode
  isLoading : Bool
  activeModel : Option String
  toasts : List Toast
  deriving DecidableEq

/-- A transform delta `{ x?: number, y?: number, z?: number }`. -/
structure Delta where
  x : Option ℚ
  y : Option ℚ
  z : Option ℚ
  deriving DecidableEq

/-- JS `delta.x || 0` (an absent component contributes zero; a present `0`
is falsy but also yields `0`). -/
def jsOrZero (v : Option ℚ) : ℚ :=
  match v with
  | none => 0
  | some q => q

/-! ## transformModel, variant A (switches on the control mode) -/

/-- The `switch (controlMode)` body of variant A's `transformModel`,
applied to the entity's scene node. -/
def applyDeltaA (mode : ControlMode) (node : Obj3D) (delta : Delta) : Obj3D :=
  match mode with
  | ControlMode.move =>
      { node with position := ⟨node.position.x + jsOrZero delta.x,
                              node.position.y + jsOrZero delta.y,
                              node.position.z + jsOrZero delta.z⟩ }
  | ControlMode.rotate =>
      { node with rotation := ⟨node.rotation.x + jsOrZero delta.x,
                              node.rotation.y + jsOrZero delta.y,
                              node.rotation.z + jsOrZero delta.z⟩ }
  | ControlMode.scale =>
      let scaleFactor := 1 + jsOrZero delta.x * (1 / 10)
      { node with scale := ⟨node.scale.x * scaleFactor,
                            node.scale.y * scaleFactor,
                            node.scale.z * scaleFactor⟩ }

/-- Replace the first entity with the given id (variant A mutates the node
object found by `arModels.find`). -/
def updateFirst (models : List ARModel) (modelId : String)
    (f : ARModel → ARModel) : List ARModel :=
  match models with
  | [] => []
  | m :: rest =>
      if m.id == modelId then f m :: rest else m :: updateFirst rest modelId f

/-- Variant A `transformModel`: no-op when the entity is absent or locked,
otherwise the delta is applied to the entity's scene node according to the
current control mode. -/
def transformModelA (s : ARState) (modelId : String) (delta : Delta) : ARState :=
  match s.arModels.find? (fun m => m.id == modelId) with
  | none => s
  | some modelData =>
      if modelData.locked then s
      else
        { s with arModels := (updateFirst s.arModels modelId
            (fun m => { m with model := applyDeltaA s.controlMode m.model delta })) }

/-! ## transformModel, variant B (ignores the control mode) -/

/-- JS `if (delta.x !== undefined) v += delta.x`. -/
def jsAddIfDefined (a : ℚ) (v : Option ℚ) : ℚ :=
  match v with
  | none => a
  | some d => a + d

/-- Variant B `transformModel`: maps over the list and, for the matching
unlocked entity, adds the delta components to the node position (whatever the
control mode) and refreshes the stored position snapshot. -/
def transformModelB (s : ARState) (modelId : String) (delta : Delta) : ARState :=
  { s with arModels := s.arModels.map (fun model =>
      if model.id == modelId && !model.locked then
        let node := { model.model with position :=
          ⟨jsAddIfDefined model.model.position.x delta.x,
           jsAddIfDefined model.model.position.y delta.y,
           jsAddIfDefined model.model.position.z delta.z⟩ }
        { model with model := node, position := node.position }
      else model) }

/-! ## spawnModel (both variants) -/

/-- The virtual camera, when `cameraRef.current` is non-null:
`getWorldDirection` fills `worldDirection` (a unit vector in the real
program). -/
structure Cam where
  position : Vec3
  worldDirection : Vec3
  deriving DecidableEq

/-- Variant A model placement: 2 units along the camera's world direction
from the camera position, or — with no camera — a position built from two
`Math.random()` draws. -/
def spawnPositionA (cam : Option Cam) (rand : ℚ × ℚ) : Vec3 :=
  match cam with
  | some c =>
      ⟨c.position.x + c.worldDirection.x * 2,
       c.position.y + c.worldDirection.y * 2,
       c.position.z + c.worldDirection.z * 2⟩
  | none => ⟨(rand.1 - 1 / 2) * 2, 0, (rand.2 - 1 / 2) * 2 - 2⟩

/-- Variant B model placement: same camera case, fixed fallback
`(0, 0, -5)`. -/
def spawnPositionB (cam : Option Cam) : Vec3 :=
  match cam with
  | some c =>
      ⟨c.position.x + c.worldDirection.x * 2,
       c.position.y + c.worldDirection.y * 2,
       c.position.z + c.worldDirection.z * 2⟩
  | none => ⟨0, 0, -5⟩

/-- Toasts issued by variant A's `spawnModel`. -/
def loadingToast (modelName : String) : Toast :=
  ⟨"Loading Model", "Loading " ++ modelName ++ "...", ToastVariant.default⟩

/-- Variant A catch-block toast; the only rejection produced inside the load
promise carries the message `Failed to load model: `. -/
def errorToastA (modelName : String) : Toast :=
  ⟨"Error Loading Model",
   "Failed to load " ++ modelName ++ ". " ++ "Failed to load model: ",
   ToastVariant.destructive⟩

def mindToast (modelName : String) : Toast :=
  ⟨"Tracking Data Loaded",
   "Successfully loaded tracking data for " ++ modelName ++ ".",
   ToastVariant.default⟩

def successToast (modelName : String) : Toast :=
  ⟨"Model Loaded", modelName ++ " has been placed in the scene.",
   ToastVariant.default⟩

/-- Variant B toasts. -/
def loadingToastB (modelName : String) : Toast :=
  ⟨"Loading Model", "Loading " ++ modelName ++ "...", ToastVariant.default⟩

def errorToastB (modelName : String) : Toast :=
  ⟨"Error", "Failed to load " ++ modelName ++ ". Please try again.",
   ToastVariant.destructive⟩

/-- `modelMaterials[0]?.id || null` — the id of the first material, or null
for an empty catalog (an empty-string id would also be falsy). -/
def firstMaterialId (mats : List Material) : Option String :=
  match mats with
  | [] => none
  | m :: _ => if m.id = "" then none else some m.id

/-- The `ARModel` record built by variant A's `spawnModel` once the node has
been positioned and rescaled. -/
def mkNewModel (modelName : String) (node : Obj3D) (now : Nat) : ARModel :=
  { id := modelName ++ "-" ++ toString now,
    name := modelName,
    model := node,
    position := node.position,
    rotation := node.rotation,
    scale := node.scale,
    locked := false,
    selectedMaterial := firstMaterialId (getModelMaterials modelName),
    materials := getModelMaterials modelName }

/-- Variant A `spawnModel`, the whole async call modelled atomically.
`loadResult` is the outcome of the GLTF load promise (`none` = rejected);
`rand` feeds the no-camera fallback position; `sizeLen` is the bounding-box
diagonal length used for normalization; `mindOk` tells whether the optional
sidecar fetch succeeded (its failure is swallowed); `now` is `Date.now()`. -/
def spawnModelA (s : ARState) (modelName : String) (cam : Option Cam)
    (rand : ℚ × ℚ) (sizeLen : ℚ) (mindOk : Bool) (now : Nat)
    (loadResult : Option Obj3D) : ARState :=
  if !s.hasScene then s
  else if s.isLoading then s
  else
    let s1 := { s with
      isLoading := true
      activeModel := some modelName
      toasts := s.toasts ++ [loadingToast modelName] }
    match loadResult with
    | none =>
        { s1 with toasts := s1.toasts ++ [errorToastA modelName],
                  isLoading := false, activeModel := none }
    | some gltf =>
        let positioned := { gltf with position := spawnPositionA cam rand }
        let scaleValue := 3 / 2 / sizeLen
        let rescaled := { positioned with
          scale := (⟨scaleValue, scaleValue, scaleValue⟩ : Vec3) }
        let s2 := if mindOk then
            { s1 with toasts := s1.toasts ++ [mindToast modelName] }
          else s1
        let newModel := mkNewModel modelName rescaled now
        { s2 with scene := s2.scene ++ [rescaled],
                  arModels := s2.arModels ++ [newModel],
                  toasts := s2.toasts ++ [successToast modelName],
                  isLoading := false, activeModel := none }

/-- Variant B `spawnModel`: same gate and flow, no sidecar fetch, fixed
fallback position, and the new entity becomes the selected model. -/
def spawnModelB (s : ARState) (modelName : String) (cam : Option Cam)
    (sizeLen : ℚ) (now : Nat) (loadResult : Option Obj3D) : ARState :=
  if !s.hasScene then s
  else if s.isLoading then s
  else
    let s1 := { s with
      isLoading := true
      activeModel := some modelName
      toasts := s.toasts ++ [loadingToastB modelName] }
    match loadResult with
    | none =>
        { s1 with toasts := s1.toasts ++ [errorToastB modelName],
                  isLoading := false, activeModel := none }
    | some gltf =>
        let positioned := { gltf with position := spawnPositionB cam }
        let scaleValue := 3 / 2 / sizeLen
        let rescaled := { positioned with
          scale := (⟨scaleValue, scaleValue, scaleValue⟩ : Vec3) }
        let newModel := mkNewModel modelName rescaled now
        { s1 with scene := s1.scene ++ [rescaled],
                  arModels := s1.arModels ++ [newModel],
                  selectedModel := some newModel.id,
                  toasts := s1.toasts ++ [successToast modelName],
                  isLoading := false, activeModel := none }

/-! ## The loading-flag discipline as a step machine (claim C4)

`spawnModel` is an async function: between `setIsLoading(true)` and the
`finally` block other events run.  The machine below captures exactly the
flag transitions of the code — a request is dropped when the scene is missing
or `isLoading` is already set, an accepted request sets the flag and starts a
load, and a resolution (success or failure) clears the flag in `finally`.
`inFlight` counts loads that have started but not resolved. -/

structure LoadGate where
  isLoading : Bool
  inFlight : Nat
  deriving DecidableEq

inductive SpawnEvent
  | request (hasScene : Bool) (modelName : String)
  | resolve (ok : Bool)
  deriving DecidableEq

/-- One step of the gate. A `resolve` can only be emitted by a load that is
actually in flight; with none in flight it is a no-op (such an event never
occurs in the program). -/
def gateStep (g : LoadGate) (e : SpawnEvent) : LoadGate :=
  match e with
  | SpawnEvent.request hasScene _ =>
      if !hasScene then g
      else if g.isLoading then g
      else { isLoading := true, inFlight := g.inFlight + 1 }
  | SpawnEvent.resolve _ =>
      if g.inFlight = 0 then g
      else { isLoading := false, inFlight := g.inFlight - 1 }

/-- The component mounts with no load in progress. -/
def gateInit : LoadGate := ⟨false, 0⟩

/-- The inductive invariant of the gate. -/
def GateInv (g : LoadGate) : Prop :=
  g.inFlight ≤ 1 ∧ (g.isLoading = true ↔ g.inFlight = 1)

/-! ## handleMaterialSelect (variant A) -/

/-- Hex value of one character, as `parseInt` radix 16 reads it. -/
def hexDigitVal (c : Char) : Option Nat :=
  let n := c.toNat
  if 48 ≤ n ∧ n ≤ 57 then some (n - 48)
  else if 97 ≤ n ∧ n ≤ 102 then some (n - 87)
  else if 65 ≤ n ∧ n ≤ 70 then some (n - 55)
  else none

/-- Accumulate the maximal hex-digit prefix. -/
def parseHexPrefix : List Char → Nat → Nat
  | [], acc => acc
  | c :: rest, acc =>
      match hexDigitVal c with
      | some v => parseHexPrefix rest (acc * 16 + v)
      | none => acc

/-- JS `parseInt(s, 16)`: `none` models the `NaN` result on a string that
does not start with a hex digit. -/
def jsParseIntHex (s : String) : Option Nat :=
  match s.toList with
  | [] => none
  | c :: _ =>
      match hexDigitVal c with
      | some _ => some (parseHexPrefix s.toList 0)
      | none => none

/-- JS `s.replace('#', '')`: remove the first occurrence of `#`. -/
def removeFirstHash (s : String) : String :=
  String.mk (go s.toList)
where
  go : List Char → List Char
    | [] => []
    | c :: rest => if c = '#' then rest else c :: go rest

/-- `material.color?.replace('#', '') || 'ffffff'`. -/
def colorHexSource (color : Option String) : String :=
  match color with
  | none => "ffffff"
  | some c =>
      let r := removeFirstHash c
      if r = "" then "ffffff" else r

/-- `handleMaterialSelect` from variant A: always records the selection on the
matching entity (no lock check); when the material exists in the entity's own
catalog and the node is a single mesh, also recolors the mesh from the
descriptor's color value. -/
def handleMaterialSelect (s : ARState) (modelId materialId : String) : ARState :=
  { s with
    arModels := s.arModels.map (fun model =>
      if model.id == modelId then
        match model.materials.find? (fun m => m.id == materialId) with
        | some material =>
            if model.model.isMesh then
              { model with
                model := { model.model with
                  meshColor := jsParseIntHex (colorHexSource material.color) },
                selectedMaterial := some materialId }
            else { model with selectedMaterial := some materialId }
        | none => { model with selectedMaterial := some materialId }
      else model),
    toasts := s.toasts ++
      [⟨"Material Applied", "Model material has been updated successfully.",
        ToastVariant.default⟩] }

/-! ## Helper lemmas for the transform claims -/

theorem jsAddIfDefined_eq (a : ℚ) (v : Option ℚ) :
    jsAddIfDefined a v = a + jsOrZero v := by
  cases v <;> simp [jsAddIfDefined, jsOrZero]

theorem list_map_id_of_eq {α : Type} (l : List α) (f : α → α)
    (h : ∀ x ∈ l, f x = x) : l.map f = l := by
  induction l with
  | nil => rfl
  | cons a l ih =>
    rw [List.map_cons, h a (List.mem_cons_self a l),
      ih (fun x hx => h x (List.mem_cons_of_mem a hx))]

/-- Decompose a list at the first entity matching an id, relating `find?`
and `updateFirst`. -/
theorem updateFirst_decomp (l : List ARModel) (i : String)
    (f : ARModel → ARModel) (m : ARModel)
    (h : l.find? (fun x => x.id == i) = some m) :
    ∃ pre post, l = pre ++ m :: post ∧ (∀ x ∈ pre, (x.id == i) = false) ∧
      updateFirst l i f = pre ++ f m :: post := by
  induction l with
  | nil => simp at h
  | cons a rest ih =>
    by_cases ha : (a.id == i) = true
    · rw [List.find?_cons_of_pos (p := fun x : ARModel => x.id == i) _ ha] at h
      have ham : a = m := by injection h
      subst ham
      exact ⟨[], rest, rfl, by simp, by simp [updateFirst, ha]⟩
    · rw [List.find?_cons_of_neg (p := fun x : ARModel => x.id == i) _ ha] at h
      obtain ⟨pre, post, heq, hpre, hupd⟩ := ih h
      refine ⟨a :: pre, post, by rw [heq, List.cons_append], ?_, ?_⟩
      · intro x hx
        rcases List.mem_cons.mp hx with hx | hx
        · subst hx
          exact Bool.not_eq_true _ ▸ ha
        · exact hpre x hx
      · rw [updateFirst]
        simp only [Bool.not_eq_true _ ▸ ha, Bool.false_eq_true, if_false]
        rw [hupd, List.cons_append]


/-! ## Claim C3: lock gating and mode dispatch of transformModel -/

/-- A plain unlocked scene node and entity used as concrete inputs. -/
def nodeZero : Obj3D :=
  ⟨⟨0, 0, 0⟩, ⟨0, 0, 0⟩, ⟨1, 1, 1⟩, false, none⟩

def modelM1 : ARModel :=
  { id := "m1", name := "lamp", model := nodeZero,
    position := nodeZero.position, rotation := nodeZero.rotation,
    scale := nodeZero.scale, locked := false,
    selectedMaterial := none, materials := [] }

/-- A state whose control mode is `rotate`, holding the single unlocked
entity `modelM1`. -/
def rotateState : ARState :=
  { hasScene := true, arModels := [modelM1], scene := [],
    selectedModel := some "m1", controlMode := ControlMode.rotate,
    isLoading := false, activeModel := none, toasts := [] }

/-- A delta of 1 on the x component. -/
def deltaX1 : Delta := ⟨some 1, none, none⟩

/-- C3 fails on variant B: with control mode `rotate` and the unlocked
entity `modelM1`, the claim requires the delta to be accumulated into the
entity's rotation, but variant B's `transformModel` leaves the rotation at
zero (it adds the delta to the position instead). -/
theorem claim_C3_counterexample :
    ¬ ((transformModelB rotateState "m1" deltaX1).arModels.map
          (fun m => m.model.rotation) = [⟨1, 0, 0⟩]) := by
  simp only [transformModelB, rotateState, modelM1, nodeZero, deltaX1]
  norm_num [jsAddIfDefined, EulerAngles.mk.injEq]

/-- C3 (amended): in both variants a locked (or absent) entity is left
unchanged by `transformModel`; variant A accumulates the delta into the
entity node's position, rotation, or multiplicative scale according to the
current control mode; variant B accumulates the delta into the position
regardless of the control mode, leaving rotation and scale untouched. -/
theorem claim_C3 :
    (∀ (s : ARState) (i : String) (d : Delta) (m : ARModel),
      s.arModels.find? (fun x => x.id == i) = some m → m.locked = true →
      transformModelA s i d = s) ∧
    (∀ (s : ARState) (i : String) (d : Delta),
      s.arModels.find? (fun x => x.id == i) = none →
      transformModelA s i d = s) ∧
    (∀ (s : ARState) (i : String) (d : Delta),
      (∀ m ∈ s.arModels, m.id = i → m.locked = true) →
      transformModelB s i d = s) ∧
    (∀ (s : ARState) (i : String) (d : Delta) (m : ARModel),
      s.arModels.find? (fun x => x.id == i) = some m → m.locked = false →
      ∃ pre post, s.arModels = pre ++ m :: post ∧
        (transformModelA s i d).arModels =
          pre ++ { m with model := applyDeltaA s.controlMode m.model d } :: post) ∧
    (∀ (node : Obj3D) (d : Delta),
      ((applyDeltaA ControlMode.move node d).position =
          ⟨node.position.x + jsOrZero d.x, node.position.y + jsOrZero d.y,
           node.position.z + jsOrZero d.z⟩ ∧
        (applyDeltaA ControlMode.move node d).rotation = node.rotation ∧
        (applyDeltaA ControlMode.move node d).scale = node.scale) ∧
      ((applyDeltaA ControlMode.rotate node d).rotation =
          ⟨node.rotation.x + jsOrZero d.x, node.rotation.y + jsOrZero d.y,
           node.rotation.z + jsOrZero d.z⟩ ∧
        (applyDeltaA ControlMode.rotate node d).position = node.position ∧
        (applyDeltaA ControlMode.rotate node d).scale = node.scale) ∧
      ((applyDeltaA ControlMode.scale node d).scale =
          ⟨node.scale.x * (1 + jsOrZero d.x * (1 / 10)),
           node.scale.y * (1 + jsOrZero d.x * (1 / 10)),
           node.scale.z * (1 + jsOrZero d.x * (1 / 10))⟩ ∧
        (applyDeltaA ControlMode.scale node d).position = node.position ∧
        (applyDeltaA ControlMode.scale node d).rotation = node.rotation)) ∧
    (∀ (s : ARState) (i : String) (d : Delta) (m : ARModel),
      m ∈ s.arModels → m.id = i → m.locked = false →
      ∃ e ∈ (transformModelB s i d).arModels,
        e.model.position =
          ⟨m.model.position.x + jsOrZero d.x, m.model.position.y + jsOrZero d.y,
           m.model.position.z + jsOrZero d.z⟩ ∧
        e.model.rotation = m.model.rotation ∧
        e.model.scale = m.model.scale ∧
        e.locked = m.locked) := by
  refine ⟨?_, ?_, ?_, ?_, ?_, ?_⟩
  · intro s i d m hfind hlock
    unfold transformModelA
    rw [hfind]
    simp [hlock]
  · intro s i d hfind
    unfold transformModelA
    rw [hfind]
  · intro s i d h
    unfold transformModelB
    have hmap : s.arModels.map (fun model =>
        if model.id == i && !model.locked then
          let node := { model.model with position :=
            ⟨jsAddIfDefined model.model.position.x d.x,
             jsAddIfDefined model.model.position.y d.y,
             jsAddIfDefined model.model.position.z d.z⟩ }
          { model with model := node, position := node.position }
        else model) = s.arModels := by
      apply list_map_id_of_eq
      intro m hm
      by_cases hid : m.id = i
      · rw [h m hm hid]
        simp [beq_iff_eq, hid]
      · have hb : (m.id == i) = false := beq_eq_false_iff_ne.mpr hid
        simp [hb]
    rw [hmap]
  · intro s i d m hfind hlock
    obtain ⟨pre, post, heq, hpre, hupd⟩ :=
      updateFirst_decomp s.arModels i
        (fun m => { m with model := applyDeltaA s.controlMode m.model d }) m hfind
    refine ⟨pre, post, heq, ?_⟩
    unfold transformModelA
    rw [hfind]
    dsimp only
    rw [if_neg (by rw [hlock]; exact Bool.false_ne_true)]
    exact hupd
  · intro node d
    refine ⟨⟨?_, ?_, ?_⟩, ⟨?_, ?_, ?_⟩, ⟨?_, ?_, ?_⟩⟩ <;> rfl
  · intro s i d m hm hid hlock
    have hb : (m.id == i) = true := beq_iff_eq.mpr hid
    refine ⟨_, List.mem_map_of_mem _ hm, ?_⟩
    simp [hb, hlock, jsAddIfDefined_eq]

/-- A locked copy of `modelM1` and a state holding it, used to witness the
lock-gating conjuncts at a concrete input. -/
def modelM1Locked : ARModel := { modelM1 with locked := true }

def lockedState : ARState := { rotateState with arModels := [modelM1Locked] }

theorem claim_C3_witness :
    transformModelA lockedState "m1" deltaX1 = lockedState ∧
    transformModelB lockedState "m1" deltaX1 = lockedState ∧
    ∃ e ∈ (transformModelB rotateState "m1" deltaX1).arModels,
      e.model.position =
        ⟨modelM1.model.position.x + jsOrZero deltaX1.x,
         modelM1.model.position.y + jsOrZero deltaX1.y,
         modelM1.model.position.z + jsOrZero deltaX1.z⟩ ∧
      e.model.rotation = modelM1.model.rotation ∧
      e.model.scale = modelM1.model.scale ∧
      e.locked = modelM1.locked :=
  ⟨claim_C3.1 lockedState "m1" deltaX1 modelM1Locked rfl rfl,
   claim_C3.2.2.1 lockedState "m1" deltaX1
     (fun m hm _ => by
       rw [show m = modelM1Locked by simpa [lockedState, rotateState] using hm]
       rfl),
   claim_C3.2.2.2.2.2 rotateState "m1" deltaX1 modelM1
     (by simp [rotateState]) rfl rfl⟩

/-! ## Claim C4: the loading flag serializes spawns -/

theorem gateStep_inv (g : LoadGate) (e : SpawnEvent)
    (h : GateInv g) : GateInv (gateStep g e) := by
  obtain ⟨h1, h2⟩ := h
  cases e with
  | request hasScene modelName =>
    unfold gateStep
    cases hasScene with
    | false => exact ⟨h1, h2⟩
    | true =>
      simp only [Bool.not_true, Bool.false_eq_true, if_false]
      by_cases hl : g.isLoading = true
      · simp only [hl, if_true]
        exact ⟨h1, h2⟩
      · have hl2 : g.isLoading = false := Bool.not_eq_true _ ▸ hl
        have hz : g.inFlight = 0 := by
          by_cases hone : g.inFlight = 1
          · rw [h2.mpr hone] at hl2
            exact absurd hl2 (by simp)
          · omega
        simp only [hl2, Bool.false_eq_true, if_false]
        refine ⟨?_, ?_⟩
        · show g.inFlight + 1 ≤ 1
          omega
        · show (true = true) ↔ (g.inFlight + 1 = 1)
          simp [hz]
  | resolve ok =>
    unfold gateStep
    by_cases hz : g.inFlight = 0
    · rw [if_pos hz]
      exact ⟨h1, h2⟩
    · rw [if_neg hz]
      refine ⟨?_, ?_⟩
      · show g.inFlight - 1 ≤ 1
        omega
      · show (false = true) ↔ (g.inFlight - 1 = 1)
        constructor
        · intro hcontra
          exact absurd hcontra (by simp)
        · intro hcontra
          omega

theorem foldl_gateInv (events : List SpawnEvent) (g : LoadGate)
    (h : GateInv g) : GateInv (events.foldl gateStep g) := by
  induction events generalizing g with
  | nil => exact h
  | cons e rest ih => exact ih (gateStep g e) (gateStep_inv g e h)

/-- C4: while a spawn is in flight both variants ignore any further spawn
request (the whole call returns with the state unchanged), the gate machine
drops a request arriving with the loading flag set, and along every event
trace from the initial state at most one load is ever in flight. -/
theorem claim_C4 :
    (∀ (s : ARState) (modelName : String) (cam : Option Cam) (rand : ℚ × ℚ)
        (sizeLen : ℚ) (mindOk : Bool) (now : Nat) (loadResult : Option Obj3D),
      s.isLoading = true →
      spawnModelA s modelName cam rand sizeLen mindOk now loadResult = s) ∧
    (∀ (s : ARState) (modelName : String) (cam : Option Cam) (sizeLen : ℚ)
        (now : Nat) (loadResult : Option Obj3D),
      s.isLoading = true →
      spawnModelB s modelName cam sizeLen now loadResult = s) ∧
    (∀ (g : LoadGate) (hasScene : Bool) (modelName : String),
      g.isLoading = true →
      gateStep g (SpawnEvent.request hasScene modelName) = g) ∧
    (∀ events : List SpawnEvent,
      (events.foldl gateStep gateInit).inFlight ≤ 1) := by
  refine ⟨?_, ?_, ?_, ?_⟩
  · intro s modelName cam rand sizeLen mindOk now loadResult h
    unfold spawnModelA
    cases hs : s.hasScene <;> simp [hs, h]
  · intro s modelName cam sizeLen now loadResult h
    unfold spawnModelB
    cases hs : s.hasScene <;> simp [hs, h]
  · intro g hasScene modelName h
    unfold gateStep
    cases hasScene <;> simp [h]
  · intro events
    have hinit : GateInv gateInit := by
      refine ⟨?_, ?_⟩
      · show (0 : Nat) ≤ 1
        omega
      · show (false = true) ↔ ((0 : Nat) = 1)
        simp
    exact (foldl_gateInv events gateInit hinit).1

/-- A state with a spawn in flight, to witness the gate at a concrete
input. -/
def loadingState : ARState :=
  { hasScene := true, arModels := [], scene := [], selectedModel := none,
    controlMode := ControlMode.move, isLoading := true, activeModel := some "x",
    toasts := [] }

theorem claim_C4_witness :
    spawnModelA loadingState "sofa" none (0, 0) 1 false 0 none = loadingState ∧
    spawnModelB loadingState "sofa" none 1 0 none = loadingState ∧
    gateStep ⟨true, 1⟩ (SpawnEvent.request true "sofa") = ⟨true, 1⟩ :=
  ⟨claim_C4.1 loadingState "sofa" none (0, 0) 1 false 0 none rfl,
   claim_C4.2.1 loadingState "sofa" none 1 0 none rfl,
   claim_C4.2.2.1 ⟨true, 1⟩ true "sofa" rfl⟩

/-! ## Claim C5: scale deltas compound multiplicatively -/

/-- C5: in scale mode one delta multiplies each scale component by
`1 + d·0.1`; applying the same delta twice multiplies the original scale by
`(1 + d·0.1)^2`, and for a nonzero delta that factor differs from the
additive `1 + 2·d·0.1`. -/
theorem claim_C5 (node : Obj3D) (d : Delta) :
    ((applyDeltaA ControlMode.scale node d).scale =
      ⟨node.scale.x * (1 + jsOrZero d.x * (1 / 10)),
       node.scale.y * (1 + jsOrZero d.x * (1 / 10)),
       node.scale.z * (1 + jsOrZero d.x * (1 / 10))⟩) ∧
    ((applyDeltaA ControlMode.scale (applyDeltaA ControlMode.scale node d) d).scale =
      ⟨node.scale.x * (1 + jsOrZero d.x * (1 / 10)) ^ 2,
       node.scale.y * (1 + jsOrZero d.x * (1 / 10)) ^ 2,
       node.scale.z * (1 + jsOrZero d.x * (1 / 10)) ^ 2⟩) ∧
    (jsOrZero d.x ≠ 0 →
      (1 + jsOrZero d.x * (1 / 10)) ^ 2 ≠ 1 + 2 * (jsOrZero d.x * (1 / 10))) := by
  refine ⟨rfl, ?_, ?_⟩
  · show (⟨_, _, _⟩ : Vec3) = _
    simp only [applyDeltaA]
    congr 1 <;> ring
  · intro hx heq
    have h2 : (jsOrZero d.x * (1 / 10)) ^ 2 = 0 := by linear_combination heq
    have h3 : jsOrZero d.x * (1 / 10) = 0 :=
      pow_eq_zero_iff two_ne_zero |>.mp h2
    rcases mul_eq_zero.mp h3 with h | h
    · exact hx h
    · norm_num at h

theorem claim_C5_witness :
    jsOrZero (Delta.mk (some 1) none none).x ≠ 0 ∧
    (1 + jsOrZero (Delta.mk (some 1) none none).x * (1 / 10)) ^ 2 ≠
      1 + 2 * (jsOrZero (Delta.mk (some 1) none none).x * (1 / 10)) :=
  ⟨by norm_num [jsOrZero],
   (claim_C5 nodeZero (Delta.mk (some 1) none none)).2.2 (by norm_num [jsOrZero])⟩

/-! ## Spawn helper lemmas shared by the success-path claims -/

/-- The node actually inserted by variant A on success: the loaded node,
repositioned and rescaled. -/
def placedNodeA (gltf : Obj3D) (cam : Option Cam) (rand : ℚ × ℚ)
    (sizeLen : ℚ) : Obj3D :=
  { gltf with position := spawnPositionA cam rand,
              scale := (⟨3 / 2 / sizeLen, 3 / 2 / sizeLen, 3 / 2 / sizeLen⟩ : Vec3) }

/-- The node actually inserted by variant B on success. -/
def placedNodeB (gltf : Obj3D) (cam : Option Cam) (sizeLen : ℚ) : Obj3D :=
  { gltf with position := spawnPositionB cam,
              scale := (⟨3 / 2 / sizeLen, 3 / 2 / sizeLen, 3 / 2 / sizeLen⟩ : Vec3) }

theorem spawnModelA_success (s : ARState) (modelName : String)
    (cam : Option Cam) (rand : ℚ × ℚ) (sizeLen : ℚ) (mindOk : Bool) (now : Nat)
    (gltf : Obj3D) (hs : s.hasScene = true) (hl : s.isLoading = false) :
    (spawnModelA s modelName cam rand sizeLen mindOk now (some gltf)).arModels =
      s.arModels ++ [mkNewModel modelName (placedNodeA gltf cam rand sizeLen) now] ∧
    (spawnModelA s modelName cam rand sizeLen mindOk now (some gltf)).scene =
      s.scene ++ [placedNodeA gltf cam rand sizeLen] ∧
    (spawnModelA s modelName cam rand sizeLen mindOk now (some gltf)).isLoading = false := by
  unfold spawnModelA placedNodeA
  cases mindOk <;> simp [hs, hl]

theorem spawnModelB_success (s : ARState) (modelName : String)
    (cam : Option Cam) (sizeLen : ℚ) (now : Nat) (gltf : Obj3D)
    (hs : s.hasScene = true) (hl : s.isLoading = false) :
    (spawnModelB s modelName cam sizeLen now (some gltf)).arModels =
      s.arModels ++ [mkNewModel modelName (placedNodeB gltf cam sizeLen) now] ∧
    (spawnModelB s modelName cam sizeLen now (some gltf)).scene =
      s.scene ++ [placedNodeB gltf cam sizeLen] ∧
    (spawnModelB s modelName cam sizeLen now (some gltf)).isLoading = false := by
  unfold spawnModelB placedNodeB
  simp [hs, hl]

/-! ## Claim C6: a failed load shows an error and leaves the scene unchanged -/

/-- C6: when the load promise rejects, both variants keep the placed-model
list and the scene graph exactly as they were (no partial insert), emit the
destructive error toast, and clear the loading flag so the UI accepts new
requests. -/
theorem claim_C6 :
    (∀ (s : ARState) (modelName : String) (cam : Option Cam) (rand : ℚ × ℚ)
        (sizeLen : ℚ) (mindOk : Bool) (now : Nat),
      s.hasScene = true → s.isLoading = false →
      (spawnModelA s modelName cam rand sizeLen mindOk now none).arModels = s.arModels ∧
      (spawnModelA s modelName cam rand sizeLen mindOk now none).scene = s.scene ∧
      (spawnModelA s modelName cam rand sizeLen mindOk now none).isLoading = false ∧
      errorToastA modelName ∈ (spawnModelA s modelName cam rand sizeLen mindOk now none).toasts ∧
      (errorToastA modelName).variant = ToastVariant.destructive) ∧
    (∀ (s : ARState) (modelName : String) (cam : Option Cam) (sizeLen : ℚ)
        (now : Nat),
      s.hasScene = true → s.isLoading = false →
      (spawnModelB s modelName cam sizeLen now none).arModels = s.arModels ∧
      (spawnModelB s modelName cam sizeLen now none).scene = s.scene ∧
      (spawnModelB s modelName cam sizeLen now none).isLoading = false ∧
      errorToastB modelName ∈ (spawnModelB s modelName cam sizeLen now none).toasts ∧
      (errorToastB modelName).variant = ToastVariant.destructive) := by
  constructor
  · intro s modelName cam rand sizeLen mindOk now hs hl
    unfold spawnModelA
    simp [hs, hl, errorToastA]
  · intro s modelName cam sizeLen now hs hl
    unfold spawnModelB
    simp [hs, hl, errorToastB]

/-- An idle camera-less state used as the concrete input of several
witnesses. -/
def idleState : ARState :=
  { hasScene := true, arModels := [], scene := [], selectedModel := none,
    controlMode := ControlMode.move, isLoading := false, activeModel := none,
    toasts := [] }

theorem claim_C6_witness :
    (spawnModelA idleState "lamp" none (0, 0) 1 false 0 none).arModels =
      idleState.arModels ∧
    (spawnModelA idleState "lamp" none (0, 0) 1 false 0 none).scene =
      idleState.scene ∧
    (spawnModelA idleState "lamp" none (0, 0) 1 false 0 none).isLoading = false ∧
    errorToastA "lamp" ∈ (spawnModelA idleState "lamp" none (0, 0) 1 false 0 none).toasts ∧
    (errorToastA "lamp").variant = ToastVariant.destructive :=
  claim_C6.1 idleState "lamp" none (0, 0) 1 false 0 rfl rfl

/-! ## Claim C8: placement position -/

/-- A unit-size untransformed node, as a loaded GLB decodes to. -/
def gltfNode : Obj3D := ⟨⟨0, 0, 0⟩, ⟨0, 0, 0⟩, ⟨1, 1, 1⟩, false, none⟩

/-- C8 fails on variant A: in the no-camera case the fallback position is
built from two `Math.random()` draws, so for one and the same input state the
placement position differs between draws `(0, 0)` and `(1/2, 1/2)` — it is
not a deterministic function of the state. -/
theorem claim_C8_counterexample :
    ¬ ((spawnModelA idleState "lamp" none (0, 0) 1 false 0 (some gltfNode)).arModels.map
          (fun m => m.position) =
       (spawnModelA idleState "lamp" none (1 / 2, 1 / 2) 1 false 0 (some gltfNode)).arModels.map
          (fun m => m.position)) := by
  simp only [spawnModelA, idleState, gltfNode, mkNewModel, spawnPositionA]
  norm_num [Vec3.mk.injEq]

/-- C8 (amended): with a camera, both variants place the model at the camera
position plus twice the camera's world direction — 2 units in front when that
direction is a unit vector; with no camera, variant B places it at the fixed
point `(0, 0, -5)` while variant A places it at
`((r1 - 1/2)·2, 0, (r2 - 1/2)·2 - 2)`, a function of the two random draws
`r1, r2`, not of the component state alone. -/
theorem claim_C8 :
    (∀ (s : ARState) (modelName : String) (c : Cam) (rand : ℚ × ℚ)
        (sizeLen : ℚ) (mindOk : Bool) (now : Nat) (gltf : Obj3D),
      s.hasScene = true → s.isLoading = false →
      ∃ e, (spawnModelA s modelName (some c) rand sizeLen mindOk now (some gltf)).arModels =
          s.arModels ++ [e] ∧
        e.position = ⟨c.position.x + c.worldDirection.x * 2,
                      c.position.y + c.worldDirection.y * 2,
                      c.position.z + c.worldDirection.z * 2⟩ ∧
        (c.worldDirection.x ^ 2 + c.worldDirection.y ^ 2 + c.worldDirection.z ^ 2 = 1 →
          (e.position.x - c.position.x) ^ 2 + (e.position.y - c.position.y) ^ 2 +
            (e.position.z - c.position.z) ^ 2 = 2 ^ 2)) ∧
    (∀ (s : ARState) (modelName : String) (c : Cam) (sizeLen : ℚ) (now : Nat)
        (gltf : Obj3D),
      s.hasScene = true → s.isLoading = false →
      ∃ e, (spawnModelB s modelName (some c) sizeLen now (some gltf)).arModels =
          s.arModels ++ [e] ∧
        e.position = ⟨c.position.x + c.worldDirection.x * 2,
                      c.position.y + c.worldDirection.y * 2,
                      c.position.z + c.worldDirection.z * 2⟩) ∧
    (∀ (s : ARState) (modelName : String) (sizeLen : ℚ) (now : Nat)
        (gltf : Obj3D),
      s.hasScene = true → s.isLoading = false →
      ∃ e, (spawnModelB s modelName none sizeLen now (some gltf)).arModels =
          s.arModels ++ [e] ∧
        e.position = ⟨0, 0, -5⟩) ∧
    (∀ (s : ARState) (modelName : String) (rand : ℚ × ℚ) (sizeLen : ℚ)
        (mindOk : Bool) (now : Nat) (gltf : Obj3D),
      s.hasScene = true → s.isLoading = false →
      ∃ e, (spawnModelA s modelName none rand sizeLen mindOk now (some gltf)).arModels =
          s.arModels ++ [e] ∧
        e.position = ⟨(rand.1 - 1 / 2) * 2, 0, (rand.2 - 1 / 2) * 2 - 2⟩) := by
  refine ⟨?_, ?_, ?_, ?_⟩
  · intro s modelName c rand sizeLen mindOk now gltf hs hl
    refine ⟨_, (spawnModelA_success s modelName (some c) rand sizeLen mindOk now gltf hs hl).1, ?_, ?_⟩
    · rfl
    · intro hn
      show (c.position.x + c.worldDirection.x * 2 - c.position.x) ^ 2 +
          (c.position.y + c.worldDirection.y * 2 - c.position.y) ^ 2 +
          (c.position.z + c.worldDirection.z * 2 - c.position.z) ^ 2 = 2 ^ 2
      linear_combination 4 * hn
  · intro s modelName c sizeLen now gltf hs hl
    exact ⟨_, (spawnModelB_success s modelName (some c) sizeLen now gltf hs hl).1, rfl⟩
  · intro s modelName sizeLen now gltf hs hl
    exact ⟨_, (spawnModelB_success s modelName none sizeLen now gltf hs hl).1, rfl⟩
  · intro s modelName rand sizeLen mindOk now gltf hs hl
    exact ⟨_, (spawnModelA_success s modelName none rand sizeLen mindOk now gltf hs hl).1, rfl⟩

/-- A camera sitting at the origin looking down the negative z axis. -/
def camAtOrigin : Cam := ⟨⟨0, 0, 0⟩, ⟨0, 0, -1⟩⟩

theorem claim_C8_witness :
    ∃ e, (spawnModelA idleState "lamp" (some camAtOrigin) (0, 0) 1 false 0
          (some gltfNode)).arModels = idleState.arModels ++ [e] ∧
      e.position = ⟨(0 : ℚ) + 0 * 2, (0 : ℚ) + 0 * 2, (0 : ℚ) + (-1) * 2⟩ ∧
      ((0 : ℚ) ^ 2 + (0 : ℚ) ^ 2 + (-1 : ℚ) ^ 2 = 1 →
        (e.position.x - 0) ^ 2 + (e.position.y - 0) ^ 2 + (e.position.z - 0) ^ 2 = 2 ^ 2) :=
  claim_C8.1 idleState "lamp" camAtOrigin (0, 0) 1 false 0 gltfNode rfl rfl

/-! ## Claim C9: material selection ignores the lock state -/

/-- C9: for any entity of the list and any material found in that entity's
own catalog, `handleMaterialSelect` records the selection on the entity —
with no condition on the locked flag, whose value is preserved — and, when
the node is a single mesh, recolors it from the descriptor's color value. -/
theorem claim_C9 :
    ∀ (s : ARState) (modelId materialId : String) (m : ARModel) (mat : Material),
      m ∈ s.arModels → m.id = modelId →
      m.materials.find? (fun x => x.id == materialId) = some mat →
      ∃ e ∈ (handleMaterialSelect s modelId materialId).arModels,
        e.selectedMaterial = some materialId ∧
        e.locked = m.locked ∧
        e.name = m.name ∧
        (m.model.isMesh = true →
          e.model.meshColor = jsParseIntHex (colorHexSource mat.color)) := by
  intro s modelId materialId m mat hm hid hfind
  have hb : (m.id == modelId) = true := beq_iff_eq.mpr hid
  refine ⟨_, List.mem_map_of_mem _ hm, ?_⟩
  cases hmesh : m.model.isMesh with
  | true => simp [hb, hfind, hmesh]
  | false => simp [hb, hfind, hmesh]

/-- A locked chair entity and a state holding it: selecting the brown
leather material is still recorded (and recolors the mesh) although the
entity is locked. -/
def meshNode : Obj3D := ⟨⟨0, 0, 0⟩, ⟨0, 0, 0⟩, ⟨1, 1, 1⟩, true, none⟩

def lockedChair : ARModel :=
  { id := "chair-1", name := "chair", model := meshNode,
    position := meshNode.position, rotation := meshNode.rotation,
    scale := meshNode.scale, locked := true,
    selectedMaterial := some "leather-brown", materials := chairMaterials }

def chairState : ARState :=
  { hasScene := true, arModels := [lockedChair], scene := [meshNode],
    selectedModel := some "chair-1", controlMode := ControlMode.move,
    isLoading := false, activeModel := none, toasts := [] }

theorem claim_C9_witness :
    ∃ e ∈ (handleMaterialSelect chairState "chair-1" "fabric-blue").arModels,
      e.selectedMaterial = some "fabric-blue" ∧
      e.locked = lockedChair.locked ∧
      e.name = lockedChair.name ∧
      (lockedChair.model.isMesh = true →
        e.model.meshColor =
          jsParseIntHex (colorHexSource (some "#3B82F6"))) :=
  claim_C9 chairState "chair-1" "fabric-blue" lockedChair
    { id := "fabric-blue", name := "Blue Fabric", color := some "#3B82F6",
      preview := "linear-gradient(135deg, #3B82F6, #60A5FA)" }
    (by simp [chairState]) rfl (by decide)

/-! ## Claim C10: every catalog is non-empty and fully colored, and a spawned
entity selects its first material -/

theorem getModelMaterials_cases (name : String) :
    getModelMaterials name = chairMaterials ∨
    getModelMaterials name = sofaMaterials ∨
    getModelMaterials name =
      chairMaterials.filter (fun m => jsIncludes m.id "wood" || jsIncludes m.id "metal") ∨
    getModelMaterials name = defaultMaterials := by
  unfold getModelMaterials
  by_cases h1 : jsIncludes (jsToLowerCase name) "chair" = true
  · simp [h1]
  · have h1f : jsIncludes (jsToLowerCase name) "chair" = false :=
      Bool.not_eq_true _ ▸ h1
    by_cases h2 : (jsIncludes (jsToLowerCase name) "sofa" ||
        jsIncludes (jsToLowerCase name) "couch") = true
    · simp [h1f, h2]
    · have h2f : (jsIncludes (jsToLowerCase name) "sofa" ||
          jsIncludes (jsToLowerCase name) "couch") = false :=
        Bool.not_eq_true _ ▸ h2
      by_cases h3 : jsIncludes (jsToLowerCase name) "table" = true
      · simp [h1f, h2f, h3]
      · have h3f : jsIncludes (jsToLowerCase name) "table" = false :=
          Bool.not_eq_true _ ▸ h3
        simp [h1f, h2f, h3f]

theorem getModelMaterials_facts (name : String) :
    getModelMaterials name ≠ [] ∧
    (∀ m ∈ getModelMaterials name, (m.color).isSome = true) ∧
    (∀ m ∈ getModelMaterials name, m.id ≠ "") := by
  rcases getModelMaterials_cases name with h | h | h | h <;> rw [h] <;>
    exact ⟨by decide, by decide, by decide⟩

/-- C10: every palette `getModelMaterials` can return is non-empty and each
of its descriptors carries a color; hence the entity appended by a successful
variant-A spawn carries a non-null `selectedMaterial` equal to the id of the
first material of its catalog. -/
theorem claim_C10 :
    (∀ name : String,
      getModelMaterials name ≠ [] ∧
      (∀ m ∈ getModelMaterials name, (m.color).isSome = true)) ∧
    (∀ (s : ARState) (modelName : String) (cam : Option Cam) (rand : ℚ × ℚ)
        (sizeLen : ℚ) (mindOk : Bool) (now : Nat) (gltf : Obj3D),
      s.hasScene = true → s.isLoading = false →
      ∃ e m0 rest,
        (spawnModelA s modelName cam rand sizeLen mindOk now (some gltf)).arModels =
          s.arModels ++ [e] ∧
        getModelMaterials modelName = m0 :: rest ∧
        e.selectedMaterial = some m0.id ∧
        e.materials = getModelMaterials modelName) := by
  constructor
  · intro name
    exact ⟨(getModelMaterials_facts name).1, (getModelMaterials_facts name).2.1⟩
  · intro s modelName cam rand sizeLen mindOk now gltf hs hl
    obtain ⟨hne, _, hid⟩ := getModelMaterials_facts modelName
    cases hmats : getModelMaterials modelName with
    | nil => exact absurd hmats hne
    | cons m0 rest =>
      have hm0 : m0 ∈ getModelMaterials modelName := by
        rw [hmats]
        exact List.mem_cons_self m0 rest
      refine ⟨mkNewModel modelName (placedNodeA gltf cam rand sizeLen) now, m0, rest,
        (spawnModelA_success s modelName cam rand sizeLen mindOk now gltf hs hl).1,
        rfl, ?_, ?_⟩
      · show firstMaterialId (getModelMaterials modelName) = some m0.id
        rw [hmats]
        simp only [firstMaterialId]
        rw [if_neg (hid m0 hm0)]
      · show getModelMaterials modelName = m0 :: rest
        exact hmats

theorem claim_C10_witness :
    ∃ e m0 rest,
      (spawnModelA idleState "lamp" none (0, 0) 1 false 0 (some gltfNode)).arModels =
        idleState.arModels ++ [e] ∧
      getModelMaterials "lamp" = m0 :: rest ∧
      e.selectedMaterial = some m0.id ∧
      e.materials = getModelMaterials "lamp" :=
  claim_C10.2 idleState "lamp" none (0, 0) 1 false 0 gltfNode rfl rfl
